import Mathlib

/-!
Shallow embedding of the proxy lifecycle subsystem of the autodl-instance
repository (src/lib/network): the mihomo installer
(src/lib/network/proxy/installer.py), subscription configuration
acquisition and patching (src/lib/network/proxy/config.py), the process
supervisor (src/lib/network/proxy/mihomo.py), and the orchestrator
fallback policy (src/lib/network/manager.py), together with theorems
about their behaviour.

External effects (network transports, subprocess invocations, signals,
the filesystem) are modelled by explicit oracle records passed to each
function; the control flow of every definition mirrors the corresponding
Python function line by line.
-/

namespace AutodlProxy

/-- The first list starts with the second one. -/
def listStartsWith : List Char → List Char → Bool
  | _, [] => true
  | [], _ :: _ => false
  | c :: cs, d :: ds => c == d && listStartsWith cs ds

/-- The second list occurs as a contiguous segment of the first. -/
def listContainsAux : List Char → List Char → Bool
  | [], needle => needle.isEmpty
  | c :: cs, needle => listStartsWith (c :: cs) needle || listContainsAux cs needle

/-- Python `needle in hay` membership test on strings: true iff `needle`
occurs as a contiguous substring of `hay` (the empty needle always
occurs). -/
def strContains (hay needle : String) : Bool :=
  listContainsAux hay.toList needle.toList

/-- Python string suffix test, used to state what "bound to port 53"
means for a host:port listen string. -/
def strEndsWith (s suffix : String) : Bool :=
  listStartsWith s.toList.reverse suffix.toList.reverse

/-- ASCII whitespace stripped by Python str.strip (space, tab, newline,
carriage return, vertical tab, form feed; non-ASCII whitespace is not
modelled). -/
def pyIsSpace (c : Char) : Bool :=
  c == ' ' || c == '\t' || c == '\n' || c == '\r' || c.toNat == 11 || c.toNat == 12

/-- Python str.strip(). -/
def pyStrip (s : String) : String :=
  String.mk (((s.toList.dropWhile pyIsSpace).reverse.dropWhile pyIsSpace).reverse)

/-- ASCII lowercasing of one character. -/
def asciiLower (c : Char) : Char :=
  if 65 ≤ c.toNat && c.toNat ≤ 90 then Char.ofNat (c.toNat + 32) else c

/-- Python str.lower() (ASCII range; the validated stdout only ever
needs ASCII). -/
def strLower (s : String) : String :=
  String.mk (s.toList.map asciiLower)

/-- Python `int(s)` as used on the PID-file content: strips surrounding
whitespace, accepts an optional sign followed by decimal digits, and
fails (raises ValueError, here `none`) on anything else.  Underscore
digit grouping and non-ASCII digits accepted by CPython are not
modelled; no claim depends on them. -/
def pyParseInt (s : String) : Option Int :=
  let core : List Char → Option Nat := fun cs =>
    if cs.isEmpty then none
    else if cs.all Char.isDigit then
      some (cs.foldl (fun n c => n * 10 + (c.toNat - 48)) 0)
    else none
  match (pyStrip s).toList with
  | '+' :: rest => (core rest).map Int.ofNat
  | '-' :: rest => (core rest).map (fun n => -(Int.ofNat n))
  | cs => (core cs).map Int.ofNat

/-! ## ProxyConfig (src/lib/network/proxy/base.py) -/

/-- The ProxyConfig dataclass of src/lib/network/proxy/base.py.  The two
directory fields are carried as plain strings; they do not influence any
of the modelled control flow. -/
structure ProxyConfig where
  subscription_url : String
  proxy_port : Nat
  api_port : Nat
  api_secret : String
  version : String
  install_dir : String
  config_dir : String
deriving DecidableEq

/-- The derived proxy base URL property of ProxyConfig. -/
def ProxyConfig.proxy_url (c : ProxyConfig) : String :=
  "http://127.0.0.1:" ++ toString c.proxy_port

/-! ## Process supervisor: MihomoBackend.stop / MihomoBackend.start
(src/lib/network/proxy/mihomo.py)

The stop model reads the PID record, sends SIGTERM, polls the process
ten times with os.kill(pid, 0), and escalates to SIGKILL when every
poll still finds the process alive.  Signals to a process that no
longer exists raise ProcessLookupError, which the source catches; other
OS errors (e.g. signalling a foreign user process) are outside the
modelled scenario. -/

/-- Oracle for one invocation of MihomoBackend.stop: the PID record file
content (none = file absent), whether the process still exists when
SIGTERM is sent, and whether the process still exists at each of the ten
liveness polls. -/
structure StopWorld where
  pidFile : Option String
  sigtermFindsProc : Bool
  pollAlive : Nat → Bool

/-- Observable outcome of MihomoBackend.stop: the returned boolean, the
PID record file after the call, and whether SIGKILL was issued. -/
structure StopResult where
  success : Bool
  pidFileAfter : Option String
  sigkillSent : Bool
deriving DecidableEq

/-- MihomoBackend._read_pid: none when the file is absent or its content
does not parse as an integer. -/
def read_pid (pidFile : Option String) : Option Int :=
  match pidFile with
  | none => none
  | some s => pyParseInt s

/-- MihomoBackend.stop (src/lib/network/proxy/mihomo.py lines 165-201).
No PID record: unlink (missing_ok) and report success.  SIGTERM hitting
a dead process: caught, unlink, success.  Otherwise poll ten times and
send SIGKILL only when all ten polls find the process alive; the PID
record is unlinked and success reported on every one of these paths. -/
def mihomo_stop (w : StopWorld) : StopResult :=
  match read_pid w.pidFile with
  | none => ⟨true, none, false⟩
  | some _ =>
    if w.sigtermFindsProc then
      ⟨true, none, (List.range 10).all fun i => w.pollAlive i⟩
    else
      ⟨true, none, false⟩

/-- Oracle for one invocation of MihomoBackend.start: presence of the
binary and the config file, whether a previous instance is running,
whether Popen succeeds, whether the proxy port became connectable
within the 15 second probe, and whether process.poll() reports the
child as already exited when the probe times out. -/
structure StartWorld where
  binExists : Bool
  configExists : Bool
  alreadyRunning : Bool
  spawnOk : Bool
  portReady : Bool
  procExited : Bool
deriving DecidableEq

/-- Observable outcome of MihomoBackend.start. -/
structure StartResult where
  success : Bool
  pidWritten : Bool
  warnedPortNotReady : Bool
  surfacedLogTail : Bool
deriving DecidableEq

/-- MihomoBackend.start (src/lib/network/proxy/mihomo.py lines 92-163).
Missing binary or config fails immediately; a running previous instance
is stopped first (that side path does not change the outcome and is not
tracked here); a spawn exception fails; then the port probe: port ready
means success, port not ready with the child already exited means
failure with the log tail surfaced, port not ready with the child alive
means success with only a warning. -/
def mihomo_start (w : StartWorld) : StartResult :=
  if !w.binExists then ⟨false, false, false, false⟩
  else if !w.configExists then ⟨false, false, false, false⟩
  else if !w.spawnOk then ⟨false, false, false, false⟩
  else if w.portReady then ⟨true, true, false, false⟩
  else if w.procExited then ⟨false, true, false, true⟩
  else ⟨true, true, true, false⟩

/-! ## Installer: install_mihomo (src/lib/network/proxy/installer.py) -/

/-- Oracle for one invocation of install_mihomo: whether invoking the
pre-existing binary with -v succeeds, whether urlretrieve succeeds, the
SHA-256 hex digest of the downloaded archive, whether gunzip
decompression succeeds, the stdout the freshly unpacked binary prints
for -v, and whether that validation run succeeds with return code 0. -/
structure InstallWorld where
  vRunOk : Bool
  downloadOk : Bool
  sha : String
  gunzipOk : Bool
  newBinStdout : String
  newBinRunOk : Bool
deriving DecidableEq

/-- Filesystem state relevant to install_mihomo: the installed binary
(carried as the stdout its -v invocation reports; none = absent) and
whether the compressed download archive is present. -/
structure InstallState where
  bin : Option String
  gz : Bool
deriving DecidableEq

/-- Counted side effects of one install_mihomo invocation. -/
structure InstallEffects where
  downloads : Nat
  shaChecked : Bool
  unpacks : Nat
deriving DecidableEq

/-- The _KNOWN_CHECKSUMS table of src/lib/network/proxy/installer.py
lines 39-45, as a lookup from (version, arch). -/
def KNOWN_CHECKSUMS (version arch : String) : Option String :=
  if version = "v1.19.20" then
    if arch = "amd64" then
      some "631e9ec36a2f70d876bbe4c70f58c4fd99589584ace741bbc2240098f452ee3a"
    else if arch = "amd64-compatible" then
      some "5e255e9eafd34077d177fc9c22b49c398c6a464b10b7bf3818f61e7179938de1"
    else if arch = "arm64" then
      some "729b04fcf54a7be6dfbb138fe8a972e058c0d7f3fddc6206fd34443342121e7c"
    else none
  else none

/-- check_installed_version (installer.py lines 72-89): run the binary
with -v and test whether the target version occurs in its stdout; any
subprocess failure yields false. -/
def check_installed_version (w : InstallWorld) (stdoutV target : String) : Bool :=
  w.vRunOk && strContains stdoutV target

/-- _validate_binary (installer.py lines 92-101): the validation run
succeeded with return code 0 and the lowercased stdout contains
"mihomo". -/
def validate_binary (w : InstallWorld) : Bool :=
  w.newBinRunOk && strContains (strLower w.newBinStdout) "mihomo"

/-- Decompress-and-validate tail of install_mihomo (installer.py lines
163-178): gunzip into the binary path, chmod, unlink the archive, then
validate; any failure runs the cleanup handler that unlinks both the
archive and the binary path. -/
def install_unpack (w : InstallWorld) (eff : InstallEffects) :
    Bool × InstallState × InstallEffects :=
  let eff := { eff with unpacks := eff.unpacks + 1 }
  if !w.gunzipOk then (false, ⟨none, false⟩, eff)
  else if validate_binary w then (true, ⟨some w.newBinStdout, false⟩, eff)
  else (false, ⟨none, false⟩, eff)

/-- Download branch of install_mihomo (installer.py lines 138-185),
entered with no binary installed: urlretrieve the archive, check its
SHA-256 digest exactly when the (version, arch) pair is in
_KNOWN_CHECKSUMS, then decompress and validate.  Every failure cleans
up both the archive and the binary path. -/
def install_download (version arch : String) (w : InstallWorld) :
    Bool × InstallState × InstallEffects :=
  if !w.downloadOk then (false, ⟨none, false⟩, ⟨1, false, 0⟩)
  else
    match KNOWN_CHECKSUMS version arch with
    | some expected =>
      if w.sha = expected then install_unpack w ⟨1, true, 0⟩
      else (false, ⟨none, false⟩, ⟨1, true, 0⟩)
    | none => install_unpack w ⟨1, false, 0⟩

/-- install_mihomo (installer.py lines 104-185): when a binary already
exists and reports a matching version, short-circuit as success with no
further effect; otherwise unlink any stale binary and take the download
path. -/
def install_mihomo (st : InstallState) (version arch : String) (w : InstallWorld) :
    Bool × InstallState × InstallEffects :=
  match st.bin with
  | some stdoutV =>
    if check_installed_version w stdoutV version then (true, st, ⟨0, false, 0⟩)
    else install_download version arch w
  | none => install_download version arch w

/-! ## Subscription download: download_subscription
(src/lib/network/proxy/config.py lines 50-123)

The transport oracle maps (user-agent, via-proxy-opener) to the outcome
of one urllib attempt: none models a raised exception, some body models
a response body (a byte list).  The effect of patch_config on the raw
bytes written to the config file is abstracted as the function argument
patchFile, since download_subscription only invokes it and returns. -/

/-- The _SUBSCRIPTION_USER_AGENTS list of config.py lines 41-47, in
priority order. -/
def SUBSCRIPTION_USER_AGENTS : List String :=
  ["clash.meta",
   "ClashForAndroid/2.5.12",
   "clash-verge/v1.3.8",
   "ClashX/1.95.1",
   "Mozilla/5.0 (Windows NT 10.0; Win64; x64)"]

/-- The cross product of transport attempts in the order the source
tries them: for each user-agent, first the direct opener (false) then
the environment-proxy opener (true). -/
def attempt_results (net : String → Bool → Option (List Nat)) :
    List (Option (List Nat)) :=
  SUBSCRIPTION_USER_AGENTS.foldr (fun ua acc => net ua false :: net ua true :: acc) []

/-- Scan the attempt outcomes in order for the first response body of at
least 100 bytes (shorter bodies and raised exceptions are skipped),
also counting how many attempts were made. -/
def first_success : List (Option (List Nat)) → Option (List Nat) × Nat
  | [] => (none, 0)
  | none :: rest =>
    let p := first_success rest
    (p.1, p.2 + 1)
  | some d :: rest =>
    if 100 ≤ d.length then (some d, 1)
    else
      let p := first_success rest
      (p.1, p.2 + 1)

/-- download_subscription (config.py lines 50-123).  An empty
subscription URL fails immediately with no attempt.  Otherwise the
attempts run in order; the first body of at least 100 bytes is written
to the config file and patched.  When every attempt fails, a
pre-existing config file of positive size is kept (re-patched) and the
call still succeeds; otherwise the call fails with the file left as it
was.  Returns (result, config file content after the call, number of
transport attempts made). -/
def download_subscription (url : String) (net : String → Bool → Option (List Nat))
    (patchFile : List Nat → List Nat) (file : Option (List Nat)) :
    Bool × Option (List Nat) × Nat :=
  if url.isEmpty then (false, file, 0)
  else
    let p := first_success (attempt_results net)
    match p.1 with
    | some d => (true, some (patchFile d), p.2)
    | none =>
      match file with
      | some c =>
        if 0 < c.length then (true, some (patchFile c), p.2)
        else (false, some c, p.2)
      | none => (false, none, p.2)

/-! ## YAML document model and patch_config
(src/lib/network/proxy/config.py lines 126-208)

A parsed YAML document is modelled by the values yaml.safe_load can
produce: scalars, sequences, and mappings.  Mappings are association
lists with the insertion-order semantics of Python dicts: assignment to
a present key keeps its position, assignment to an absent key appends
it.  Parsed mappings have pairwise distinct keys. -/

inductive YVal where
  | str (s : String)
  | int (n : Int)
  | bool (b : Bool)
  | null
  | list (xs : List YVal)
  | map (m : List (String × YVal))

abbrev Doc := List (String × YVal)

/-- Dict lookup: the value at the first occurrence of the key. -/
def getKey (d : Doc) (k : String) : Option YVal :=
  match d with
  | [] => none
  | p :: rest => if p.1 = k then some p.2 else getKey rest k

/-- Python `k in d` on a dict. -/
def hasKey (d : Doc) (k : String) : Bool :=
  (getKey d k).isSome

/-- Dict lookup with default, Python d.get(k, dflt). -/
def getD (d : Doc) (k : String) (dflt : YVal) : YVal :=
  match getKey d k with
  | some v => v
  | none => dflt

/-- Dict assignment d[k] = v: replace in place when the key is present,
append otherwise. -/
def setKey (d : Doc) (k : String) (v : YVal) : Doc :=
  if hasKey d k then d.map (fun p => if p.1 = k then (k, v) else p)
  else d ++ [(k, v)]

/-- Dict removal d.pop(k, None). -/
def eraseKey (d : Doc) (k : String) : Doc :=
  d.filter (fun p => !(p.1 == k))

/-- A single quote character, for rendering Python repr output. -/
def sq : String :=
  String.singleton (Char.ofNat 39)

mutual

/-- Python repr of a safe_load value, used by str() on containers.
String escaping and the quote-choice rules of CPython repr are not
modelled; no modelled behaviour depends on them. -/
def pyRepr : YVal → String
  | .str s => sq ++ s ++ sq
  | .int n => toString n
  | .bool true => "True"
  | .bool false => "False"
  | .null => "None"
  | .list xs => "[" ++ pyReprItems xs ++ "]"
  | .map m => "\x7b" ++ pyReprEntries m ++ "\x7d"

/-- Comma-separated repr of list items. -/
def pyReprItems : List YVal → String
  | [] => ""
  | [v] => pyRepr v
  | v :: rest => pyRepr v ++ ", " ++ pyReprItems rest

/-- Comma-separated repr of dict entries. -/
def pyReprEntries : List (String × YVal) → String
  | [] => ""
  | [(k, v)] => sq ++ k ++ sq ++ ": " ++ pyRepr v
  | (k, v) :: rest => sq ++ k ++ sq ++ ": " ++ pyRepr v ++ ", " ++ pyReprEntries rest

end

/-- Python str() of a safe_load value, as applied to the dns listen
entry. -/
def pyStr : YVal → String
  | .str s => s
  | .int n => toString n
  | .bool true => "True"
  | .bool false => "False"
  | .null => "None"
  | .list xs => pyRepr (.list xs)
  | .map m => pyRepr (.map m)

/-- The rewrite guard of patch step 6 (config.py line 181): the string
form of dns.listen is nonempty, contains ":53", and does not contain
"1053". -/
def dnsRewriteCond (s : String) : Bool :=
  !s.isEmpty && strContains s ":53" && !(strContains s "1053")

/-- Patch steps 1-3 (config.py lines 152-166): drop the legacy port
keys, then force the core mixed-port / external-controller / allow-lan /
mode / log-level settings and the environment adaptations. -/
def patchCore (cfg : ProxyConfig) (data : Doc) : Doc :=
  let d := eraseKey (eraseKey (eraseKey (eraseKey data "port") "socks-port") "redir-port") "tproxy-port"
  setKey (setKey (setKey (setKey (setKey (setKey (setKey d
    "mixed-port" (.int cfg.proxy_port))
    "external-controller" (.str ("127.0.0.1:" ++ toString cfg.api_port)))
    "allow-lan" (.bool false))
    "mode" (.str "rule"))
    "log-level" (.str "warning"))
    "ipv6" (.bool false))
    "find-process-mode" (.str "off")

/-- Patch step 4 (config.py lines 169-171): setdefault the profile
mapping, then set its store-selected and store-fake-ip entries.  When
the existing profile value is not a mapping the item assignment raises
TypeError, which the source-level except handler turns into a patch
failure (the file is not rewritten): modelled as none. -/
def patchProfile (d : Doc) : Option Doc :=
  match getKey d "profile" with
  | none =>
    some (setKey d "profile" (.map [("store-selected", .bool true), ("store-fake-ip", .bool true)]))
  | some (.map m) =>
    some (setKey d "profile" (.map (setKey (setKey m "store-selected" (.bool true)) "store-fake-ip" (.bool true))))
  | some _ => none

/-- Patch step 5 (config.py lines 174-175): force tun.enable off when a
tun mapping is present. -/
def patchTun (d : Doc) : Doc :=
  match getKey d "tun" with
  | some (.map tm) => setKey d "tun" (.map (setKey tm "enable" (.bool false)))
  | _ => d

/-- Patch step 6 (config.py lines 178-182): rebind dns.listen to
127.0.0.1:1053 when the guard holds. -/
def patchDns (d : Doc) : Doc :=
  match getKey d "dns" with
  | some (.map dm) =>
    if dnsRewriteCond (pyStr (getD dm "listen" (.str ""))) then
      setKey d "dns" (.map (setKey dm "listen" (.str "127.0.0.1:1053")))
    else d
  | _ => d

/-- Patch step 7 (config.py lines 185-186): install the API secret when
one is configured. -/
def patchSecret (cfg : ProxyConfig) (d : Doc) : Doc :=
  if cfg.api_secret.isEmpty then d
  else setKey d "secret" (.str cfg.api_secret)

/-- The geox-url mapping literal of config.py lines 194-199. -/
def geoxUrlVal : YVal :=
  .map
    [("geoip", .str "https://testingcf.jsdelivr.net/gh/MetaCubeX/meta-rules-dat@release/geoip.dat"),
     ("geosite", .str "https://testingcf.jsdelivr.net/gh/MetaCubeX/meta-rules-dat@release/geosite.dat"),
     ("mmdb", .str "https://testingcf.jsdelivr.net/gh/MetaCubeX/meta-rules-dat@release/country.mmdb"),
     ("asn", .str "https://testingcf.jsdelivr.net/gh/MetaCubeX/meta-rules-dat@release/GeoLite2-ASN.mmdb")]

/-- Patch step 8 (config.py lines 191-199): geodata settings. -/
def patchGeo (d : Doc) : Doc :=
  setKey (setKey (setKey (setKey d
    "geodata-mode" (.bool true))
    "geo-auto-update" (.bool false))
    "geo-update-interval" (.int 168))
    "geox-url" geoxUrlVal

/-- patch_config (config.py lines 126-208) on an input document that
parsed as a YAML mapping: some patched document when the patch body
runs to completion, none when it raises (non-mapping profile value) and
the except handler leaves the file untouched. -/
def patch_config (cfg : ProxyConfig) (data : Doc) : Option Doc :=
  match patchProfile (patchCore cfg data) with
  | none => none
  | some d => some (patchGeo (patchSecret cfg (patchDns (patchTun d))))

/-- Reads out the dns.listen entry of a document, for stating the DNS
patch clause. -/
def dnsListenOf (d : Doc) : Option YVal :=
  match getKey d "dns" with
  | some (.map dm) => getKey dm "listen"
  | _ => none

/-! ## Orchestrator: NetworkManager._setup_proxy and _build_proxy_config
(src/lib/network/manager.py) -/

/-- The resolved content of proxy/manifest.yaml (after .get defaults). -/
structure ManifestData where
  proxy_port : Nat
  api_port : Nat
  mihomo_version : String
  install_dir : String
  config_dir : String
deriving DecidableEq

/-- _build_proxy_config (manager.py lines 70-100): mihomo is enabled
when a subscription URL is configured or the backup config.yaml exists
with more than 100 bytes; otherwise no ProxyConfig is built. -/
def build_proxy_config (subscription_url api_secret : String)
    (backupConfigExists : Bool) (backupConfigSize : Nat) (m : ManifestData) :
    Option ProxyConfig :=
  let hasBackup := backupConfigExists && decide (100 < backupConfigSize)
  if subscription_url.isEmpty && !hasBackup then none
  else
    some ⟨subscription_url, m.proxy_port, m.api_port, api_secret,
      m.mihomo_version, m.install_dir, m.config_dir⟩

/-- The externally observable steps _setup_proxy takes, in order. -/
inductive OrchEvent where
  | loadTurbo
  | installStep
  | restoreStep
  | updateStep
  | backupStep
  | startStep
  | healthStep
  | injectEnv (url : String)
deriving DecidableEq

/-- Boolean outcomes of the stage calls _setup_proxy makes on the
backend.  The restore outcome is carried for fidelity although the
source ignores it. -/
structure OrchOracle where
  installOk : Bool
  restoreOk : Bool
  updateOk : Bool
  startOk : Bool
  healthOk : Bool
deriving DecidableEq

/-- NetworkManager._setup_proxy (manager.py lines 203-267) as the
sequence of steps it performs.  No ProxyConfig: fall back to
load_autodl_turbo only.  Otherwise: bootstrap turbo, install (failure
falls back and stops), restore from backup, update the subscription
(failure falls back and stops), back up the config, start (failure
falls back and stops), health check (its outcome changes nothing), and
inject the proxy environment variables with the configured proxy URL. -/
def setup_proxy (cfg : Option ProxyConfig) (o : OrchOracle) : List OrchEvent :=
  match cfg with
  | none => [.loadTurbo]
  | some c =>
    .loadTurbo :: .installStep ::
      (if !o.installOk then [.loadTurbo]
       else .restoreStep :: .updateStep ::
         (if !o.updateOk then [.loadTurbo]
          else .backupStep :: .startStep ::
            (if !o.startOk then [.loadTurbo]
             else [.healthStep, .injectEnv c.proxy_url])))

/-! ## Helper lemmas on the dict operations -/

/-- Replacing the value at a present key yields that value on lookup. -/
theorem getKey_mapset_self (d : Doc) (k : String) (v : YVal)
    (h : getKey d k ≠ none) :
    getKey (d.map fun p => if p.1 = k then (k, v) else p) k = some v := by
  induction d with
  | nil => simp [getKey] at h
  | cons p rest ih =>
    by_cases hp : p.1 = k
    · simp [getKey, hp]
    · simp only [getKey, hp, if_neg, ite_false] at h
      simp only [List.map_cons, if_neg hp]
      change getKey ((p.1, p.2) :: _) k = _ at *
      simp only [getKey, hp, ite_false]
      exact ih h

/-- The in-place replacement of one key leaves every other key alone. -/
theorem getKey_mapset_ne (d : Doc) (k : String) (v : YVal) (k2 : String)
    (h : k2 ≠ k) :
    getKey (d.map fun p => if p.1 = k then (k, v) else p) k2 = getKey d k2 := by
  induction d with
  | nil => rfl
  | cons p rest ih =>
    by_cases hp : p.1 = k
    · have hk2 : ¬ k = k2 := fun hh => h hh.symm
      simp only [List.map_cons, if_pos hp]
      simp only [getKey, hp, hk2, ite_false]
      exact ih
    · simp only [List.map_cons, if_neg hp]
      by_cases hp2 : p.1 = k2 <;> simp [getKey, hp2, ih]

/-- Appending a fresh key makes it visible when it was absent. -/
theorem getKey_append_single_self (d : Doc) (k : String) (v : YVal)
    (h : getKey d k = none) :
    getKey (d ++ [(k, v)]) k = some v := by
  induction d with
  | nil => simp [getKey]
  | cons p rest ih =>
    by_cases hp : p.1 = k
    · simp [getKey, hp] at h
    · simp only [getKey, hp, ite_false] at h
      simp only [List.cons_append]
      simp only [getKey, hp, ite_false]
      exact ih h

/-- Appending a key leaves every other key alone. -/
theorem getKey_append_single_ne (d : Doc) (k : String) (v : YVal) (k2 : String)
    (h : k2 ≠ k) :
    getKey (d ++ [(k, v)]) k2 = getKey d k2 := by
  induction d with
  | nil =>
    have : ¬ k = k2 := fun hh => h hh.symm
    simp [getKey, this]
  | cons p rest ih =>
    by_cases hp2 : p.1 = k2 <;> simp [getKey, hp2, ih]

/-- Dict assignment makes the assigned key map to the assigned value. -/
theorem getKey_setKey_self (d : Doc) (k : String) (v : YVal) :
    getKey (setKey d k v) k = some v := by
  unfold setKey
  by_cases hk : hasKey d k = true
  · rw [if_pos hk]
    refine getKey_mapset_self d k v ?_
    intro hn
    rw [hasKey, hn] at hk
    simp at hk
  · rw [if_neg hk]
    refine getKey_append_single_self d k v ?_
    cases hg : getKey d k with
    | none => rfl
    | some w => rw [hasKey, hg] at hk; simp at hk

/-- Dict assignment leaves every other key alone. -/
theorem getKey_setKey_ne (d : Doc) (k : String) (v : YVal) (k2 : String)
    (h : k2 ≠ k) :
    getKey (setKey d k v) k2 = getKey d k2 := by
  unfold setKey
  by_cases hk : hasKey d k = true
  · rw [if_pos hk]; exact getKey_mapset_ne d k v k2 h
  · rw [if_neg hk]; exact getKey_append_single_ne d k v k2 h

/-- Removing a key removes it. -/
theorem getKey_eraseKey_self (d : Doc) (k : String) :
    getKey (eraseKey d k) k = none := by
  induction d with
  | nil => rfl
  | cons p rest ih =>
    by_cases hp : p.1 = k
    · simpa [eraseKey, List.filter_cons, hp] using ih
    · simpa [eraseKey, List.filter_cons, hp, getKey] using ih

/-- Removing a key leaves every other key alone. -/
theorem getKey_eraseKey_ne (d : Doc) (k : String) (k2 : String)
    (h : k2 ≠ k) :
    getKey (eraseKey d k) k2 = getKey d k2 := by
  induction d with
  | nil => rfl
  | cons p rest ih =>
    by_cases hp : p.1 = k
    · have hp2 : ¬ p.1 = k2 := by rw [hp]; intro hh; exact h hh.symm
      have hb : (!(p.1 == k)) = false := by simp [hp]
      simp only [eraseKey, List.filter_cons, hb]
      rw [if_neg Bool.false_ne_true]
      have e2 : getKey (p :: rest) k2 = getKey rest k2 := by
        simp [getKey, hp2]
      rw [e2]
      exact ih
    · have hb : (!(p.1 == k)) = true := by simp [hp]
      simp only [eraseKey, List.filter_cons, hb]
      rw [if_pos trivial]
      by_cases hp2 : p.1 = k2
      · have e1 : getKey (p :: List.filter (fun q => !(q.1 == k)) rest) k2
            = some p.2 := by
          simp [getKey, hp2]
        have e2 : getKey (p :: rest) k2 = some p.2 := by
          simp [getKey, hp2]
        rw [e1, e2]
      · have e1 : getKey (p :: List.filter (fun q => !(q.1 == k)) rest) k2
            = getKey (List.filter (fun q => !(q.1 == k)) rest) k2 := by
          simp [getKey, hp2]
        have e2 : getKey (p :: rest) k2 = getKey rest k2 := by
          simp [getKey, hp2]
        rw [e1, e2]
        exact ih

/-! ## Helper lemmas on the individual patch steps -/

/-- patchTun only ever touches the tun key. -/
theorem getKey_patchTun_ne (d : Doc) (k : String) (h : k ≠ "tun") :
    getKey (patchTun d) k = getKey d k := by
  unfold patchTun
  split
  · rw [getKey_setKey_ne _ _ _ _ h]
  · rfl

/-- patchDns only ever touches the dns key. -/
theorem getKey_patchDns_ne (d : Doc) (k : String) (h : k ≠ "dns") :
    getKey (patchDns d) k = getKey d k := by
  unfold patchDns
  split
  · split
    · rw [getKey_setKey_ne _ _ _ _ h]
    · rfl
  · rfl

/-- patchSecret only ever touches the secret key. -/
theorem getKey_patchSecret_ne (cfg : ProxyConfig) (d : Doc) (k : String)
    (h : k ≠ "secret") :
    getKey (patchSecret cfg d) k = getKey d k := by
  unfold patchSecret
  split
  · rfl
  · rw [getKey_setKey_ne _ _ _ _ h]

/-- patchGeo only ever touches the four geodata keys. -/
theorem getKey_patchGeo_ne (d : Doc) (k : String)
    (h1 : k ≠ "geodata-mode") (h2 : k ≠ "geo-auto-update")
    (h3 : k ≠ "geo-update-interval") (h4 : k ≠ "geox-url") :
    getKey (patchGeo d) k = getKey d k := by
  unfold patchGeo
  rw [getKey_setKey_ne _ _ _ _ h4, getKey_setKey_ne _ _ _ _ h3,
      getKey_setKey_ne _ _ _ _ h2, getKey_setKey_ne _ _ _ _ h1]

/-- When patchProfile succeeds it only ever touches the profile key. -/
theorem getKey_patchProfile_ne (d0 d : Doc) (k : String)
    (hp : patchProfile d0 = some d) (h : k ≠ "profile") :
    getKey d k = getKey d0 k := by
  unfold patchProfile at hp
  split at hp
  · cases hp; rw [getKey_setKey_ne _ _ _ _ h]
  · cases hp; rw [getKey_setKey_ne _ _ _ _ h]
  · cases hp

/-- The key values patchCore installs. -/
theorem getKey_patchCore_sets (cfg : ProxyConfig) (data : Doc) :
    getKey (patchCore cfg data) "mixed-port" = some (.int cfg.proxy_port) ∧
    getKey (patchCore cfg data) "external-controller"
      = some (.str ("127.0.0.1:" ++ toString cfg.api_port)) := by
  unfold patchCore
  constructor
  · rw [getKey_setKey_ne _ _ _ _ (by decide), getKey_setKey_ne _ _ _ _ (by decide),
        getKey_setKey_ne _ _ _ _ (by decide), getKey_setKey_ne _ _ _ _ (by decide),
        getKey_setKey_ne _ _ _ _ (by decide), getKey_setKey_ne _ _ _ _ (by decide),
        getKey_setKey_self]
  · rw [getKey_setKey_ne _ _ _ _ (by decide), getKey_setKey_ne _ _ _ _ (by decide),
        getKey_setKey_ne _ _ _ _ (by decide), getKey_setKey_ne _ _ _ _ (by decide),
        getKey_setKey_ne _ _ _ _ (by decide), getKey_setKey_self]

/-- patchCore drops all four legacy port keys. -/
theorem getKey_patchCore_legacy (cfg : ProxyConfig) (data : Doc) (k : String)
    (h : k = "port" ∨ k = "socks-port" ∨ k = "redir-port" ∨ k = "tproxy-port") :
    getKey (patchCore cfg data) k = none := by
  unfold patchCore
  rcases h with h | h | h | h <;> subst h
  · rw [getKey_setKey_ne _ _ _ _ (by decide), getKey_setKey_ne _ _ _ _ (by decide),
        getKey_setKey_ne _ _ _ _ (by decide), getKey_setKey_ne _ _ _ _ (by decide),
        getKey_setKey_ne _ _ _ _ (by decide), getKey_setKey_ne _ _ _ _ (by decide),
        getKey_setKey_ne _ _ _ _ (by decide), getKey_eraseKey_ne _ _ _ (by decide),
        getKey_eraseKey_ne _ _ _ (by decide), getKey_eraseKey_ne _ _ _ (by decide),
        getKey_eraseKey_self]
  · rw [getKey_setKey_ne _ _ _ _ (by decide), getKey_setKey_ne _ _ _ _ (by decide),
        getKey_setKey_ne _ _ _ _ (by decide), getKey_setKey_ne _ _ _ _ (by decide),
        getKey_setKey_ne _ _ _ _ (by decide), getKey_setKey_ne _ _ _ _ (by decide),
        getKey_setKey_ne _ _ _ _ (by decide), getKey_eraseKey_ne _ _ _ (by decide),
        getKey_eraseKey_ne _ _ _ (by decide), getKey_eraseKey_self]
  · rw [getKey_setKey_ne _ _ _ _ (by decide), getKey_setKey_ne _ _ _ _ (by decide),
        getKey_setKey_ne _ _ _ _ (by decide), getKey_setKey_ne _ _ _ _ (by decide),
        getKey_setKey_ne _ _ _ _ (by decide), getKey_setKey_ne _ _ _ _ (by decide),
        getKey_setKey_ne _ _ _ _ (by decide), getKey_eraseKey_ne _ _ _ (by decide),
        getKey_eraseKey_self]
  · rw [getKey_setKey_ne _ _ _ _ (by decide), getKey_setKey_ne _ _ _ _ (by decide),
        getKey_setKey_ne _ _ _ _ (by decide), getKey_setKey_ne _ _ _ _ (by decide),
        getKey_setKey_ne _ _ _ _ (by decide), getKey_setKey_ne _ _ _ _ (by decide),
        getKey_setKey_ne _ _ _ _ (by decide), getKey_eraseKey_self]

/-- patchCore leaves the dns key alone. -/
theorem getKey_patchCore_dns (cfg : ProxyConfig) (data : Doc) :
    getKey (patchCore cfg data) "dns" = getKey data "dns" := by
  unfold patchCore
  rw [getKey_setKey_ne _ _ _ _ (by decide), getKey_setKey_ne _ _ _ _ (by decide),
      getKey_setKey_ne _ _ _ _ (by decide), getKey_setKey_ne _ _ _ _ (by decide),
      getKey_setKey_ne _ _ _ _ (by decide), getKey_setKey_ne _ _ _ _ (by decide),
      getKey_setKey_ne _ _ _ _ (by decide), getKey_eraseKey_ne _ _ _ (by decide),
      getKey_eraseKey_ne _ _ _ (by decide), getKey_eraseKey_ne _ _ _ (by decide),
      getKey_eraseKey_ne _ _ _ (by decide)]

/-- The chain of patch steps after profile handling leaves every key
other than tun, dns, secret and the geodata keys alone. -/
theorem getKey_outer_ne (cfg : ProxyConfig) (d : Doc) (k : String)
    (h1 : k ≠ "tun") (h2 : k ≠ "dns") (h3 : k ≠ "secret")
    (h4 : k ≠ "geodata-mode") (h5 : k ≠ "geo-auto-update")
    (h6 : k ≠ "geo-update-interval") (h7 : k ≠ "geox-url") :
    getKey (patchGeo (patchSecret cfg (patchDns (patchTun d)))) k = getKey d k := by
  rw [getKey_patchGeo_ne _ _ h4 h5 h6 h7, getKey_patchSecret_ne _ _ _ h3,
      getKey_patchDns_ne _ _ h2, getKey_patchTun_ne _ _ h1]

/-- When the patched document carries a tun mapping, its enable entry
was forced off by patchTun. -/
theorem patchTun_enable (d : Doc) (tm : Doc)
    (h : getKey (patchTun d) "tun" = some (.map tm)) :
    getKey tm "enable" = some (.bool false) := by
  unfold patchTun at h
  split at h
  · rw [getKey_setKey_self] at h
    injection h with h
    cases h
    exact getKey_setKey_self _ _ _
  · next hne => exact absurd h (hne tm)

/-! ## Claim theorems -/

/-- C8: calling stop() with no PID record file, or with a PID record
whose content does not parse as an integer, returns success without
raising, never signals, and afterwards no PID record file exists. -/
theorem stop_idempotent_no_pid (w : StopWorld)
    (h : w.pidFile = none ∨ ∃ s, w.pidFile = some s ∧ pyParseInt s = none) :
    mihomo_stop w = ⟨true, none, false⟩ := by
  have hr : read_pid w.pidFile = none := by
    rcases h with h | ⟨s, hs, hp⟩
    · rw [h]; rfl
    · rw [hs]; exact hp
  simp [mihomo_stop, hr]

/-- Witness for C8 at a PID record whose content is not an integer. -/
theorem stop_idempotent_no_pid_witness :
    mihomo_stop ⟨some "mihomo", true, fun _ => true⟩ = ⟨true, none, false⟩ :=
  stop_idempotent_no_pid _ (Or.inr ⟨"mihomo", rfl, rfl⟩)

/-- C4: when the PID record holds a process that survives the SIGTERM
and all ten liveness polls, stop() escalates to SIGKILL before
returning, and the PID record file is removed regardless (the SIGKILL
outcome cannot change either fact, since a ProcessLookupError from it
is swallowed before the unlink). -/
theorem stop_sigkill_escalation (w : StopWorld) (pid : Int)
    (h1 : read_pid w.pidFile = some pid)
    (h2 : w.sigtermFindsProc = true)
    (h3 : ∀ i, i < 10 → w.pollAlive i = true) :
    mihomo_stop w = ⟨true, none, true⟩ := by
  have hall : ((List.range 10).all fun i => w.pollAlive i) = true := by
    simp only [List.all_eq_true, List.mem_range]
    intro i hi
    exact h3 i hi
  simp [mihomo_stop, h1, h2, hall]

/-- Witness for C4 at PID 42 with a process that never exits. -/
theorem stop_sigkill_escalation_witness :
    mihomo_stop ⟨some "42", true, fun _ => true⟩ = ⟨true, none, true⟩ :=
  stop_sigkill_escalation _ 42 rfl rfl (fun _ _ => rfl)

/-- C7: when start() spawns the engine and the proxy port does not open
within the bounded probe, the call fails (surfacing the log tail) when
the child has already exited, but succeeds with only a warning when the
child is still alive. -/
theorem start_port_timeout (w : StartWorld)
    (hb : w.binExists = true) (hc : w.configExists = true)
    (hs : w.spawnOk = true) (hp : w.portReady = false) :
    (w.procExited = true → mihomo_start w = ⟨false, true, false, true⟩) ∧
    (w.procExited = false → mihomo_start w = ⟨true, true, true, false⟩) := by
  constructor <;> intro h <;> simp [mihomo_start, hb, hc, hs, hp, h]

/-- Witness for C7: both port-timeout outcomes at concrete worlds. -/
theorem start_port_timeout_witness :
    mihomo_start ⟨true, true, false, true, false, true⟩ = ⟨false, true, false, true⟩ ∧
    mihomo_start ⟨true, true, false, true, false, false⟩ = ⟨true, true, true, false⟩ :=
  ⟨(start_port_timeout _ rfl rfl rfl rfl).1 rfl,
   (start_port_timeout _ rfl rfl rfl rfl).2 rfl⟩

/-- C5: when the binary already exists at the install path and its -v
invocation reports a string containing the target version, install
returns success with zero downloads, zero decompressions, no checksum
activity, and the filesystem state unchanged; in particular a second
install call after a correct install performs zero network operations. -/
theorem install_idempotent (st : InstallState) (version arch : String)
    (w : InstallWorld) (rep : String)
    (hb : st.bin = some rep) (hrun : w.vRunOk = true)
    (hv : strContains rep version = true) :
    install_mihomo st version arch w = (true, st, ⟨0, false, 0⟩) := by
  simp [install_mihomo, hb, check_installed_version, hrun, hv]

/-- Witness for C5 at a correctly installed v1.19.20 binary. -/
theorem install_idempotent_witness :
    install_mihomo ⟨some "Mihomo Meta v1.19.20 linux amd64 with gvisor", false⟩
        "v1.19.20" "amd64" ⟨true, false, "", true, "", true⟩
      = (true, ⟨some "Mihomo Meta v1.19.20 linux amd64 with gvisor", false⟩,
         ⟨0, false, 0⟩) :=
  install_idempotent _ _ _ _ _ rfl rfl rfl

/-- C6: after a successful download, install verifies the SHA-256
digest exactly when the (version, arch) pair is in the hard-coded
table; a tabled pair with a digest mismatch fails and removes both the
archive and the binary path, while an untabled pair is accepted with no
integrity verification at all. -/
theorem install_checksum_policy :
    (∀ (version arch : String) (w : InstallWorld), w.downloadOk = true →
       (install_mihomo ⟨none, false⟩ version arch w).2.2.shaChecked
         = (KNOWN_CHECKSUMS version arch).isSome) ∧
    (∀ (version arch : String) (w : InstallWorld) (expected : String),
       KNOWN_CHECKSUMS version arch = some expected → w.downloadOk = true →
       w.sha ≠ expected →
       install_mihomo ⟨none, false⟩ version arch w
         = (false, ⟨none, false⟩, ⟨1, true, 0⟩)) ∧
    (∀ (version arch : String) (w : InstallWorld),
       KNOWN_CHECKSUMS version arch = none → w.downloadOk = true →
       w.gunzipOk = true → validate_binary w = true →
       install_mihomo ⟨none, false⟩ version arch w
         = (true, ⟨some w.newBinStdout, false⟩, ⟨1, false, 1⟩)) := by
  have hun : ∀ (w : InstallWorld) (e : InstallEffects),
      (install_unpack w e).2.2.shaChecked = e.shaChecked := by
    intro w e
    unfold install_unpack
    by_cases hg : w.gunzipOk <;> by_cases hv : validate_binary w <;> simp [hg, hv]
  refine ⟨?_, ?_, ?_⟩
  · intro version arch w hd
    show (install_download version arch w).2.2.shaChecked = _
    unfold install_download
    cases hk : KNOWN_CHECKSUMS version arch with
    | none => simp [hd, hun]
    | some e =>
      by_cases hsha : w.sha = e <;> simp [hd, hsha, hun]
  · intro version arch w expected hk hd hsha
    show install_download version arch w = _
    unfold install_download
    rw [hk]
    simp [hd, hsha]
  · intro version arch w hk hd hg hv
    show install_download version arch w = _
    unfold install_download
    rw [hk]
    simp [hd, install_unpack, hg, hv]

/-- Witness for C6: an untabled pair checks nothing, a tabled pair with
a wrong digest fails with both artifacts removed, and an untabled pair
with a working binary is accepted unverified. -/
theorem install_checksum_policy_witness :
    (install_mihomo ⟨none, false⟩ "v2.0.0" "amd64"
       ⟨true, true, "00", true, "mihomo v2.0.0", true⟩).2.2.shaChecked
      = (KNOWN_CHECKSUMS "v2.0.0" "amd64").isSome ∧
    install_mihomo ⟨none, false⟩ "v1.19.20" "amd64"
       ⟨true, true, "00", true, "mihomo", true⟩
      = (false, ⟨none, false⟩, ⟨1, true, 0⟩) ∧
    install_mihomo ⟨none, false⟩ "v1.19.10" "amd64"
       ⟨true, true, "00", true, "Mihomo Meta v1.19.10", true⟩
      = (true, ⟨some "Mihomo Meta v1.19.10", false⟩, ⟨1, false, 1⟩) :=
  ⟨install_checksum_policy.1 _ _ _ rfl,
   install_checksum_policy.2.1 _ _ _ _ rfl rfl (by decide),
   install_checksum_policy.2.2 _ _ _ rfl rfl rfl rfl⟩

/-- C1: with a discovered ProxyConfig, an install failure, a
subscription-update failure, or a start failure each falls back to
load_autodl_turbo immediately and executes none of the later stages
(the exact traces show the single bootstrap turbo load at the head and
the fallback load at the tail, with nothing after it); a health-check
failure after a successful start changes nothing: no fallback occurs
and the proxy environment variables are injected with the configured
proxy URL. -/
theorem setup_proxy_fallback_policy (c : ProxyConfig) (o : OrchOracle) :
    (o.installOk = false →
       setup_proxy (some c) o = [.loadTurbo, .installStep, .loadTurbo]) ∧
    (o.installOk = true → o.updateOk = false →
       setup_proxy (some c) o
         = [.loadTurbo, .installStep, .restoreStep, .updateStep, .loadTurbo]) ∧
    (o.installOk = true → o.updateOk = true → o.startOk = false →
       setup_proxy (some c) o
         = [.loadTurbo, .installStep, .restoreStep, .updateStep, .backupStep,
            .startStep, .loadTurbo]) ∧
    (o.installOk = true → o.updateOk = true → o.startOk = true →
     o.healthOk = false →
       setup_proxy (some c) o
         = [.loadTurbo, .installStep, .restoreStep, .updateStep, .backupStep,
            .startStep, .healthStep, .injectEnv c.proxy_url]) := by
  refine ⟨?_, ?_, ?_, ?_⟩ <;> intros <;> simp [setup_proxy, *]

/-- Witness for C1: all four stage-failure shapes at port 7890. -/
theorem setup_proxy_fallback_policy_witness :
    setup_proxy (some ⟨"https://sub.example.test/clash", 7890, 9090, "",
        "v1.19.10", "/usr/local/bin", "/etc/mihomo"⟩)
        ⟨false, true, true, true, true⟩
      = [.loadTurbo, .installStep, .loadTurbo] ∧
    setup_proxy (some ⟨"https://sub.example.test/clash", 7890, 9090, "",
        "v1.19.10", "/usr/local/bin", "/etc/mihomo"⟩)
        ⟨true, true, false, true, true⟩
      = [.loadTurbo, .installStep, .restoreStep, .updateStep, .loadTurbo] ∧
    setup_proxy (some ⟨"https://sub.example.test/clash", 7890, 9090, "",
        "v1.19.10", "/usr/local/bin", "/etc/mihomo"⟩)
        ⟨true, true, true, false, true⟩
      = [.loadTurbo, .installStep, .restoreStep, .updateStep, .backupStep,
         .startStep, .loadTurbo] ∧
    setup_proxy (some ⟨"https://sub.example.test/clash", 7890, 9090, "",
        "v1.19.10", "/usr/local/bin", "/etc/mihomo"⟩)
        ⟨true, true, true, true, false⟩
      = [.loadTurbo, .installStep, .restoreStep, .updateStep, .backupStep,
         .startStep, .healthStep, .injectEnv "http://127.0.0.1:7890"] :=
  ⟨(setup_proxy_fallback_policy _ _).1 rfl,
   (setup_proxy_fallback_policy _ _).2.1 rfl rfl,
   (setup_proxy_fallback_policy _ _).2.2.1 rfl rfl rfl,
   (setup_proxy_fallback_policy _ _).2.2.2 rfl rfl rfl rfl⟩

/-- C9: with no subscription URL in the secrets file and no usable
backup config (absent, or not larger than 100 bytes), no ProxyConfig is
built, the orchestrator falls back directly to the simple acceleration
path, and the installer step never runs. -/
theorem proxy_disabled_skips_installer (subscription_url api_secret : String)
    (bex : Bool) (bsize : Nat) (m : ManifestData) (o : OrchOracle)
    (hurl : subscription_url = "")
    (hb : bex = false ∨ bsize ≤ 100) :
    build_proxy_config subscription_url api_secret bex bsize m = none ∧
    setup_proxy (build_proxy_config subscription_url api_secret bex bsize m) o
      = [.loadTurbo] ∧
    OrchEvent.installStep ∉
      setup_proxy (build_proxy_config subscription_url api_secret bex bsize m) o := by
  have hbc : build_proxy_config subscription_url api_secret bex bsize m = none := by
    subst hurl
    have hurl2 : ("" : String).isEmpty = true := rfl
    rcases hb with hb | hb
    · subst hb; simp [build_proxy_config, hurl2]
    · have hdec : decide (100 < bsize) = false := decide_eq_false (Nat.not_lt.mpr hb)
      simp [build_proxy_config, hdec, hurl2]
  refine ⟨hbc, ?_, ?_⟩ <;> rw [hbc] <;> simp [setup_proxy]

/-- Witness for C9 with an absent backup file. -/
theorem proxy_disabled_skips_installer_witness :
    build_proxy_config "" "" false 0
        ⟨7890, 9090, "v1.19.10", "/usr/local/bin", "/etc/mihomo"⟩ = none ∧
    setup_proxy (build_proxy_config "" "" false 0
        ⟨7890, 9090, "v1.19.10", "/usr/local/bin", "/etc/mihomo"⟩)
        ⟨true, true, true, true, true⟩ = [.loadTurbo] ∧
    OrchEvent.installStep ∉
      setup_proxy (build_proxy_config "" "" false 0
        ⟨7890, 9090, "v1.19.10", "/usr/local/bin", "/etc/mihomo"⟩)
        ⟨true, true, true, true, true⟩ :=
  proxy_disabled_skips_installer _ _ _ _ _ _ rfl (Or.inl rfl)

/-- C10: with an empty subscription URL, download_subscription fails
immediately: zero transport attempts are made and the config file is
left exactly as it was, even when a non-empty config file exists. -/
theorem download_empty_url (url : String)
    (net : String → Bool → Option (List Nat))
    (patchFile : List Nat → List Nat) (file : Option (List Nat))
    (h : url.isEmpty = true) :
    download_subscription url net patchFile file = (false, file, 0) := by
  simp [download_subscription, h]

/-- Witness for C10: the transport oracle would succeed and a non-empty
config file exists, yet the empty URL still yields failure with zero
attempts. -/
theorem download_empty_url_witness :
    download_subscription "" (fun _ _ => some (List.replicate 200 0)) (fun c => c)
        (some (List.replicate 150 1))
      = (false, some (List.replicate 150 1), 0) :=
  download_empty_url _ _ _ _ rfl

/-- Scanning attempt outcomes that all failed or came back under the
minimum size yields no body and counts every attempt. -/
theorem first_success_all_bad (l : List (Option (List Nat)))
    (h : ∀ d, some d ∈ l → d.length < 100) :
    first_success l = (none, l.length) := by
  induction l with
  | nil => rfl
  | cons a rest ih =>
    have hrest : ∀ d, some d ∈ rest → d.length < 100 :=
      fun d hd => h d (List.mem_cons_of_mem _ hd)
    cases a with
    | none => simp [first_success, ih hrest]
    | some d =>
      have hd : d.length < 100 := h d (List.mem_cons_self _ _)
      simp [first_success, Nat.not_le.mpr hd, ih hrest]

/-- When every (user-agent, opener) transport attempt raises or returns
a body under 100 bytes, the scan over all ten attempts finds nothing. -/
theorem attempts_all_bad (net : String → Bool → Option (List Nat))
    (h : ∀ ua b d, net ua b = some d → d.length < 100) :
    first_success (attempt_results net) = (none, 10) := by
  have hm : ∀ d, some d ∈ attempt_results net → d.length < 100 := by
    intro d hd
    simp only [attempt_results, SUBSCRIPTION_USER_AGENTS, List.foldr_cons,
      List.foldr_nil] at hd
    simp only [List.mem_cons, List.not_mem_nil, or_false] at hd
    rcases hd with hd | hd | hd | hd | hd | hd | hd | hd | hd | hd <;>
      exact h _ _ _ hd.symm
  rw [first_success_all_bad _ hm]
  rfl

/-- C3 (amended): when the subscription URL is nonempty and every
transport attempt fails or returns a body below the minimum size, the
call fails when no config file pre-exists, succeeds with the
pre-existing content re-patched when a nonempty config file
pre-exists, and fails when the pre-existing file is empty (an empty
file is treated like an absent one). -/
theorem download_total_failure (url : String)
    (net : String → Bool → Option (List Nat))
    (patchFile : List Nat → List Nat) (file : Option (List Nat))
    (hurl : url.isEmpty = false)
    (h : ∀ ua b d, net ua b = some d → d.length < 100) :
    (file = none →
       download_subscription url net patchFile file = (false, none, 10)) ∧
    (∀ c, file = some c → 0 < c.length →
       download_subscription url net patchFile file
         = (true, some (patchFile c), 10)) ∧
    (file = some [] →
       download_subscription url net patchFile file = (false, some [], 10)) := by
  have hfs := attempts_all_bad net h
  refine ⟨?_, ?_, ?_⟩
  · intro hf; subst hf; simp [download_subscription, hurl, hfs]
  · intro c hf hc; subst hf
    simp [download_subscription, hurl, hfs, Nat.pos_iff_ne_zero.mp hc]
  · intro hf; subst hf; simp [download_subscription, hurl, hfs]

/-- Witness for C3: total transport failure over a nonempty stale file
succeeds and re-patches the stale content. -/
theorem download_total_failure_witness :
    download_subscription "https://sub.example.test/clash" (fun _ _ => none)
        (fun c => 0 :: c) (some [1, 2, 3])
      = (true, some [0, 1, 2, 3], 10) :=
  (download_total_failure "https://sub.example.test/clash" (fun _ _ => none)
      (fun c => 0 :: c) (some [1, 2, 3]) rfl (fun _ _ _ hh => by cases hh)).2.1
    [1, 2, 3] rfl (by decide)

/-- C3 counterexample to the claim as stated: every transport attempt
fails and a local config file already exists (with empty content), yet
the call returns failure, not success. -/
theorem download_stale_empty_counterexample :
    download_subscription "https://sub.example.test/clash" (fun _ _ => none)
        (fun c => c) (some [])
      = (false, some [], 10) := rfl

/-- C2 (amended): whenever patch_config succeeds on a document that
parsed as a mapping, the written document has none of the four legacy
port keys, mixed-port equal to the configured proxy port,
external-controller bound to loopback at the configured API port, a
disabled enable field in any tun mapping present, and dns.listen
rewritten to 127.0.0.1:1053 whenever the original listen string is
nonempty, contains the substring ":53", and does not contain the
substring "1053" (the source tests substrings, not the parsed port
number). -/
theorem patch_config_invariants (cfg : ProxyConfig) (data out : Doc)
    (h : patch_config cfg data = some out) :
    getKey out "port" = none ∧
    getKey out "socks-port" = none ∧
    getKey out "redir-port" = none ∧
    getKey out "tproxy-port" = none ∧
    getKey out "mixed-port" = some (.int cfg.proxy_port) ∧
    getKey out "external-controller"
      = some (.str ("127.0.0.1:" ++ toString cfg.api_port)) ∧
    (∀ tm, getKey out "tun" = some (.map tm) →
       getKey tm "enable" = some (.bool false)) ∧
    (∀ dm, getKey data "dns" = some (.map dm) →
       dnsRewriteCond (pyStr (getD dm "listen" (.str ""))) = true →
       dnsListenOf out = some (.str "127.0.0.1:1053")) := by
  unfold patch_config at h
  cases hp : patchProfile (patchCore cfg data) with
  | none => rw [hp] at h; cases h
  | some d =>
    rw [hp] at h
    injection h with h
    subst h
    refine ⟨?_, ?_, ?_, ?_, ?_, ?_, ?_, ?_⟩
    · rw [getKey_outer_ne _ _ _ (by decide) (by decide) (by decide) (by decide)
          (by decide) (by decide) (by decide),
          getKey_patchProfile_ne _ _ _ hp (by decide)]
      exact getKey_patchCore_legacy cfg data _ (Or.inl rfl)
    · rw [getKey_outer_ne _ _ _ (by decide) (by decide) (by decide) (by decide)
          (by decide) (by decide) (by decide),
          getKey_patchProfile_ne _ _ _ hp (by decide)]
      exact getKey_patchCore_legacy cfg data _ (Or.inr (Or.inl rfl))
    · rw [getKey_outer_ne _ _ _ (by decide) (by decide) (by decide) (by decide)
          (by decide) (by decide) (by decide),
          getKey_patchProfile_ne _ _ _ hp (by decide)]
      exact getKey_patchCore_legacy cfg data _ (Or.inr (Or.inr (Or.inl rfl)))
    · rw [getKey_outer_ne _ _ _ (by decide) (by decide) (by decide) (by decide)
          (by decide) (by decide) (by decide),
          getKey_patchProfile_ne _ _ _ hp (by decide)]
      exact getKey_patchCore_legacy cfg data _ (Or.inr (Or.inr (Or.inr rfl)))
    · rw [getKey_outer_ne _ _ _ (by decide) (by decide) (by decide) (by decide)
          (by decide) (by decide) (by decide),
          getKey_patchProfile_ne _ _ _ hp (by decide)]
      exact (getKey_patchCore_sets cfg data).1
    · rw [getKey_outer_ne _ _ _ (by decide) (by decide) (by decide) (by decide)
          (by decide) (by decide) (by decide),
          getKey_patchProfile_ne _ _ _ hp (by decide)]
      exact (getKey_patchCore_sets cfg data).2
    · intro tm htm
      rw [getKey_patchGeo_ne _ _ (by decide) (by decide) (by decide) (by decide),
          getKey_patchSecret_ne _ _ _ (by decide),
          getKey_patchDns_ne _ _ (by decide)] at htm
      exact patchTun_enable _ _ htm
    · intro dm hdm hcond
      have hd2 : getKey (patchTun d) "dns" = some (.map dm) := by
        rw [getKey_patchTun_ne _ _ (by decide),
            getKey_patchProfile_ne _ _ _ hp (by decide),
            getKey_patchCore_dns]
        exact hdm
      have hout : getKey (patchGeo (patchSecret cfg (patchDns (patchTun d)))) "dns"
          = some (.map (setKey dm "listen" (.str "127.0.0.1:1053"))) := by
        rw [getKey_patchGeo_ne _ _ (by decide) (by decide) (by decide) (by decide),
            getKey_patchSecret_ne _ _ _ (by decide)]
        unfold patchDns
        rw [hd2]
        simp only [hcond, if_true]
        exact getKey_setKey_self _ _ _
      unfold dnsListenOf
      rw [hout]
      exact getKey_setKey_self _ _ _

/-- Witness for C2 (amended) on a document carrying a legacy port key, a
conflicting mixed-port, and a dns block bound to 0.0.0.0:53. -/
theorem patch_config_invariants_witness :
    getKey ((patch_config
        ⟨"https://sub.example.test/clash", 7890, 9090, "", "v1.19.10",
         "/usr/local/bin", "/etc/mihomo"⟩
        [("port", .int 7897), ("mixed-port", .int 1),
         ("dns", .map [("listen", .str "0.0.0.0:53")])]).getD [])
      "mixed-port" = some (.int 7890) := by
  have h : patch_config
      ⟨"https://sub.example.test/clash", 7890, 9090, "", "v1.19.10",
       "/usr/local/bin", "/etc/mihomo"⟩
      [("port", .int 7897), ("mixed-port", .int 1),
       ("dns", .map [("listen", .str "0.0.0.0:53")])]
      = some ((patch_config
        ⟨"https://sub.example.test/clash", 7890, 9090, "", "v1.19.10",
         "/usr/local/bin", "/etc/mihomo"⟩
        [("port", .int 7897), ("mixed-port", .int 1),
         ("dns", .map [("listen", .str "0.0.0.0:53")])]).getD []) := rfl
  exact (patch_config_invariants _ _ _ h).2.2.2.2.1

/-- C2 counterexample to the claim as stated: the input dns.listen
string "[::1053]:53" is bound to the system resolver port 53 (it ends
with ":53"), the patch succeeds, yet the written document still carries
the original listen value instead of "127.0.0.1:1053", because the
source skips the rewrite whenever the string contains "1053"
anywhere. -/
theorem patch_config_dns_counterexample :
    strEndsWith "[::1053]:53" ":53" = true ∧
    Option.map dnsListenOf (patch_config
        ⟨"", 7890, 9090, "", "v1.19.10", "/usr/local/bin", "/etc/mihomo"⟩
        [("dns", .map [("listen", .str "[::1053]:53")])])
      = some (some (.str "[::1053]:53")) :=
  ⟨rfl, rfl⟩

end AutodlProxy
